import Mathlib

/-!
Verification development for the Ghana small-scale gold-mining dashboard
(`app.py`). The app loads static geospatial datasets, reprojects a mapping
of satellite-image bounding boxes from UTM to WGS84, builds folium layers
for licenses, boundaries, detections and district compliance, and assembles
one map document per request.

The embedding below translates the per-record computations and the map
assembly of `app.py` into executable Lean definitions:
* dates are modelled as day numbers (`ℕ`, days since an arbitrary epoch),
  so pandas timestamp differences `.days` become subtraction;
* Python floats are modelled as exact rationals (`ℚ`); `int(x)` is
  truncation toward zero (`py_int`);
* file-system access, the pyproj transform and base64 encoding are
  external effects, passed in as explicit function parameters;
* fallible Python blocks (`try`/`except`) become `Option`-valued
  functions: `none` is the caught-exception path, so a result is always
  produced and no exception escapes.
-/

namespace GhanaMining

/-- Minimum of a pandas series of day numbers (`dates.min()` in `app.py`).
Empty series defaults to 0 (pandas would give NaT; the loop body is then
never executed, so the default is irrelevant). -/
def seriesMin : List ℕ → ℕ
  | [] => 0
  | [x] => x
  | x :: y :: xs => Nat.min x (seriesMin (y :: xs))

/-- Maximum of a pandas series of day numbers (`dates.max()` in `app.py`). -/
def seriesMax : List ℕ → ℕ
  | [] => 0
  | [x] => x
  | x :: y :: xs => Nat.max x (seriesMax (y :: xs))

/-- `date_min = dates.min()` (app.py line 376). -/
def date_min (ds : List ℕ) : ℕ := seriesMin ds

/-- `date_range = (dates.max() - date_min).days` (app.py line 377). -/
def date_range (ds : List ℕ) : ℕ := seriesMax ds - date_min ds

/-- `days_since_min = (date_val - date_min).days` (app.py line 385); a
timestamp difference may be negative in general, hence `ℤ`. -/
def days_since_min (ds : List ℕ) (d : ℕ) : ℤ := (d : ℤ) - (date_min ds : ℤ)

/-- Python `int()` on an exact rational value: truncation toward zero. -/
def py_int (q : ℚ) : ℤ := if 0 ≤ q then ⌊q⌋ else -⌊-q⌋

/-- `color_intensity = int(255 * (days_since_min / date_range))`
(app.py line 386), with the float arithmetic modelled exactly over `ℚ`. -/
def color_intensity (ds : List ℕ) (d : ℕ) : ℤ :=
  py_int ((255 : ℚ) * ((days_since_min ds d : ℚ) / (date_range ds : ℚ)))

/-- One lowercase hexadecimal digit, as produced by Python `%x` formatting. -/
def hexDigit (n : ℕ) : Char :=
  if n < 10 then Char.ofNat (48 + n) else Char.ofNat (87 + n)

/-- Hexadecimal digit list of a natural number, most significant first
(the digits Python `%x` prints). -/
def natToHexDigits (n : ℕ) : List Char :=
  if _h : n < 16 then [hexDigit n]
  else natToHexDigits (n / 16) ++ [hexDigit (n % 16)]
decreasing_by
  exact Nat.div_lt_self (by omega) (by omega)

/-- Python `'%02x' % n` / `f'\x7bn:02x\x7d'`: hexadecimal digits of `n`
left-padded with zeros to width 2. -/
def format02x (n : ℕ) : String :=
  let ds := natToHexDigits n
  String.mk (List.replicate (2 - ds.length) '0' ++ ds)

/-- The detection fill color of one record (app.py lines 381-387):
fixed `"#800000"` when the collection's date range is zero, otherwise
`f'#\x7bcolor_intensity:02x\x7d0000'`. -/
def detection_fill_color (ds : List ℕ) (d : ℕ) : String :=
  if date_range ds = 0 then "#800000"
  else "#" ++ format02x (color_intensity ds d).toNat ++ "0000"

/-- Fixed source CRS of the bounds conversion
(`utm_crs = pyproj.CRS('EPSG:32630')`, app.py line 97). -/
def utm_crs : String := "EPSG:32630"

/-- Fixed target CRS of the bounds conversion
(`wgs84_crs = pyproj.CRS('EPSG:4326')`, app.py line 98). -/
def wgs84_crs : String := "EPSG:4326"

/-- One entry of `satellite_bounds_test.json`: an axis-aligned bounding
box in the projected (UTM) CRS. -/
structure BoundsUTM where
  north : ℚ
  south : ℚ
  east : ℚ
  west : ℚ
deriving Repr, DecidableEq

/-- One entry of the converted `satellite_bounds` dict (app.py lines
113-122): the derived geographic edges plus the original projected edges. -/
structure BoundsConverted where
  north : ℚ
  south : ℚ
  east : ℚ
  west : ℚ
  north_utm : ℚ
  south_utm : ℚ
  east_utm : ℚ
  west_utm : ℚ
deriving Repr, DecidableEq

/-- Conversion of a single bounding box (app.py lines 108-122). The pyproj
call `transformer.transform` (with `always_xy=True`, so pairs are
(x, y) = (lon, lat)) is the external parameter `transform`; the code
applies it to the (west, south) and (east, north) diagonal corners only. -/
def convert_bounds (transform : ℚ × ℚ → ℚ × ℚ) (bounds_utm : BoundsUTM) : BoundsConverted :=
  let ws := transform (bounds_utm.west, bounds_utm.south)
  let en := transform (bounds_utm.east, bounds_utm.north)
  { north := en.2
    south := ws.2
    east := en.1
    west := ws.1
    north_utm := bounds_utm.north
    south_utm := bounds_utm.south
    east_utm := bounds_utm.east
    west_utm := bounds_utm.west }

/-- The whole `satellite_bounds` mapping built from `satellite_bounds_utm`
(app.py loop at lines 108-122), keyed by image name. -/
def convert_all_bounds (transform : ℚ × ℚ → ℚ × ℚ)
    (entries : List (String × BoundsUTM)) : List (String × BoundsConverted) :=
  entries.map (fun e => (e.1, convert_bounds transform e.2))

/-- One row of `gdf_district_ratios` (the district-compliance dataset,
attributes listed in app.py lines 290-329). -/
structure DistrictRecord where
  district_name : String
  mp_name : String
  party : String
  constituency : String
  profile_link : Option String
  licensed_mining_ha : ℚ
  detected_mining_ha : ℚ
  excess_mining_ha : ℚ
  mining_ratio : ℚ
  fill_color : String
deriving Repr, DecidableEq

/-- The style dict returned by a folium `style_function`
(the keys used by the district-ratio layer, app.py lines 334-339). -/
structure StyleDict where
  fillColor : String
  color : String
  weight : ℚ
  fillOpacity : ℚ
deriving Repr, DecidableEq

/-- District-compliance style (app.py lines 328-339):
`fill_opacity = 0.6 if fill_color != 'transparent' else 0` and the style
function maps the sentinel `'transparent'` to fill color `'#000000'`
(which is invisible because the opacity is then 0). -/
def district_style (record : DistrictRecord) : StyleDict :=
  let fill_color := record.fill_color
  let fill_opacity : ℚ := if fill_color ≠ "transparent" then 0.6 else 0
  { fillColor := if fill_color ≠ "transparent" then fill_color else "#000000"
    color := "black"
    weight := 1
    fillOpacity := fill_opacity }

/-- Python float rounding as used by `format(x, '.2f')`: round half to
even, here applied to an exact rational. -/
def py_round (q : ℚ) : ℤ :=
  if q - ⌊q⌋ < 1 / 2 then ⌊q⌋
  else if 1 / 2 < q - ⌊q⌋ then ⌊q⌋ + 1
  else if ⌊q⌋ % 2 = 0 then ⌊q⌋ else ⌊q⌋ + 1

/-- Exactly two decimal digit characters for `r < 100`: the fractional
part printed by `'%.2f'`. -/
def two_digits (r : ℕ) : String :=
  String.mk [Char.ofNat (48 + r / 10), Char.ofNat (48 + r % 10)]

/-- `f'\x7bx:.2f\x7d'` for a non-negative value: scale by 100, round, and
print integer part, a dot, and two fractional digits. -/
def format2f_nonneg (q : ℚ) : String :=
  Nat.repr ((py_round (q * 100)).toNat / 100) ++ "." ++ two_digits ((py_round (q * 100)).toNat % 100)

/-- `f'\x7bx:.2f\x7d'` over `ℚ`, with the sign handled as Python does
(a rounded-to-zero negative still prints a minus sign). -/
def format2f (q : ℚ) : String :=
  if q < 0 then "-" ++ format2f_nonneg (-q) else format2f_nonneg q

/-- `ratio_text = 'No licensed mining' if props['mining_ratio'] == -1 else
f"\x7bprops['mining_ratio']:.2f\x7d"` (app.py line 292). -/
def ratio_text (record : DistrictRecord) : String :=
  if record.mining_ratio = -1 then "No licensed mining" else format2f record.mining_ratio

/-- `tooltip_text = f"\x7bprops['district_name']\x7d: \x7bratio_text\x7d"`
(app.py line 325). -/
def tooltip_text (record : DistrictRecord) : String :=
  record.district_name ++ ": " ++ ratio_text record

/-- `os.path.basename`: the final path component. -/
def basename (path : String) : String :=
  (path.splitOn "/").reverse.headD path

/-- The fields folium's `raster_layers.ImageOverlay` receives in app.py
lines 224-231 and 242-248. `cross_origin` is passed only by the primary
(base64) attempt. -/
structure ImageOverlay where
  image : String
  bounds : (ℚ × ℚ) × (ℚ × ℚ)
  opacity : ℚ
  name : String
  interactive : Bool
  cross_origin : Option Bool
deriving Repr, DecidableEq

/-- The overlay name `f"Sat: \x7bimage_name[:15]\x7d... (\x7bres_label\x7d)"`. -/
def overlay_name (image_name res_label : String) : String :=
  "Sat: " ++ image_name.take 15 ++ "... (" ++ res_label ++ ")"

/-- The two-stage image embedding of app.py lines 217-252. `read_file`
models reading and base64-encoding the PNG (`none` = the `try` block
raised); on failure the fallback overlay references the image by bare
filename, and `fallback_ok` models whether that second `try` block
succeeds. Both failing yields `none`: the entry is skipped after a log
message and no exception escapes. -/
def addSatelliteImage (read_file : String → Option (List ℕ))
    (b64encode : List ℕ → String) (fallback_ok : String → Bool)
    (img_path res_label image_name : String)
    (img_bounds : (ℚ × ℚ) × (ℚ × ℚ)) : Option ImageOverlay :=
  match read_file img_path with
  | some img_data =>
      let img_url := "data:image/png;base64," ++ b64encode img_data
      some { image := img_url
             bounds := img_bounds
             opacity := 0.8
             name := overlay_name image_name res_label
             interactive := true
             cross_origin := some false }
  | none =>
      let relative_path := basename img_path
      if fallback_ok relative_path then
        some { image := relative_path
               bounds := img_bounds
               opacity := 0.8
               name := overlay_name image_name res_label
               interactive := true
               cross_origin := none }
      else none

/-- The resolution probe list `[("med", "Medium"), ("low", "Low"),
("", "Original")]` (app.py line 195). -/
def res_options : List (String × String) :=
  [("med", "Medium"), ("low", "Low"), ("", "Original")]

/-- `suffix = f"_\x7bres\x7d" if res else ""` (app.py line 196). -/
def suffix_of (res : String) : String :=
  if res ≠ "" then "_" ++ res else ""

/-- `test_path = os.path.join(SATELLITE_PNG_DIR, f"\x7bimage_name\x7d\x7bsuffix\x7d.png")`
(app.py line 197). -/
def test_path (dir image_name res : String) : String :=
  dir ++ "/" ++ image_name ++ suffix_of res ++ ".png"

/-- The probe loop of app.py lines 190-201: the first resolution option
whose file exists, as `(img_path, res_label)`; `none` when no file
exists (the entry is then skipped with a warning, line 203-205). -/
def resolve_image (path_exists : String → Bool) (dir image_name : String) :
    Option (String × String) :=
  (res_options.find? (fun p => path_exists (test_path dir image_name p.1))).map
    (fun p => (test_path dir image_name p.1, p.2))

/-- The whole satellite-overlay loop (app.py lines 189-252) over the
converted bounds entries: resolve the image file, then attempt the
two-stage embedding; entries with no file or with both embedding attempts
failing contribute nothing. `img_bounds = [[south, west], [north, east]]`
(app.py lines 208-211). -/
def build_satellite_layer (path_exists : String → Bool)
    (read_file : String → Option (List ℕ)) (b64encode : List ℕ → String)
    (fallback_ok : String → Bool) (dir : String)
    (entries : List (String × BoundsConverted)) : List ImageOverlay :=
  entries.filterMap (fun e =>
    match resolve_image path_exists dir e.1 with
    | none => none
    | some pr =>
        addSatelliteImage read_file b64encode fallback_ok pr.1 pr.2 e.1
          ((e.2.south, e.2.west), (e.2.north, e.2.east)))

/-- One child element attached to the folium map, in attachment order.
Layer contents are modelled separately (`build_satellite_layer`,
`district_style`, `detection_fill_color`, ...); here only the identity,
the `show` flag and the viewport-fitting call matter. -/
inductive MapElement where
  | tileLayer (name : String) (show_layer : Bool)
  | featureGroup (name : String) (show_layer : Bool)
  | htmlElement (element_id : String)
  | layerControl
  | fitBounds (sw : ℚ × ℚ) (ne : ℚ × ℚ)
deriving Repr, DecidableEq

/-- The name of a map layer (tile layer or feature group). -/
def layer_name : MapElement → Option String
  | MapElement.tileLayer n _ => some n
  | MapElement.featureGroup n _ => some n
  | _ => none

/-- The `show` flag of a map layer (tile layer or feature group). -/
def layer_show_flag : MapElement → Option Bool
  | MapElement.tileLayer _ s => some s
  | MapElement.featureGroup _ s => some s
  | _ => none

/-- Whether an element is a named toggleable feature group. -/
def is_feature_group : MapElement → Bool
  | MapElement.featureGroup _ _ => true
  | _ => false

/-- The assembled folium map: initial location and zoom plus the children
in attachment order. -/
structure MapDocument where
  location : ℚ × ℚ
  zoom_start : ℕ
  children : List MapElement
deriving Repr, DecidableEq

/-- The map assembly of `app.py` (`server.map`, lines 159-525). `bounds`
is `gdf_licenses.total_bounds = [minx, miny, maxx, maxy]` (line 128);
`center_lat = (bounds[1] + bounds[3]) / 2` and
`center_lon = (bounds[0] + bounds[2]) / 2` (lines 129-130). Children are
attached in source order: Planet basemap tile layer, the six feature
groups, the legend HTML, the legend script, the layer control, and
finally `m.fit_bounds([[bounds[1], bounds[0]], [bounds[3], bounds[2]]])`
(line 525). -/
def build_map (bounds : Fin 4 → ℚ) : MapDocument :=
  let center_lat := (bounds 1 + bounds 3) / 2
  let center_lon := (bounds 0 + bounds 2) / 2
  { location := (center_lat, center_lon)
    zoom_start := 8
    children := [
      MapElement.tileLayer "Planet Basemap" false,
      MapElement.featureGroup "Satellite Images (High-Res)" false,
      MapElement.featureGroup "Regions" false,
      MapElement.featureGroup "Districts by Mining Ratio" false,
      MapElement.featureGroup "District Boundaries" false,
      MapElement.featureGroup "Detected Mining Activity" false,
      MapElement.featureGroup "Licensed sites" false,
      MapElement.htmlElement "mining-legend",
      MapElement.htmlElement "legend-script",
      MapElement.layerControl,
      MapElement.fitBounds (bounds 1, bounds 0) (bounds 3, bounds 2)] }

/-- Concrete district record used by witnesses. -/
def sample_record : DistrictRecord :=
  { district_name := "Adansi North"
    mp_name := "A. Mensah"
    party := "NDC"
    constituency := "Adansi"
    profile_link := none
    licensed_mining_ha := 120
    detected_mining_ha := 240
    excess_mining_ha := 120
    mining_ratio := 2
    fill_color := "#ff8000" }

/-- Concrete district record with the sentinel fill color, used by
witnesses. -/
def transparent_record : DistrictRecord :=
  { sample_record with mining_ratio := -1, fill_color := "transparent" }

/-!  Theorems.  -/

theorem seriesMin_le_of_mem {d : ℕ} : ∀ {ds : List ℕ}, d ∈ ds → seriesMin ds ≤ d
  | [], h => absurd h (List.not_mem_nil d)
  | [x], h => by
      rcases List.mem_singleton.mp h with rfl
      exact le_refl _
  | x :: y :: xs, h => by
      rcases List.mem_cons.mp h with rfl | h2
      · exact min_le_left _ _
      · exact le_trans (min_le_right _ _) (seriesMin_le_of_mem h2)

theorem le_seriesMax_of_mem {d : ℕ} : ∀ {ds : List ℕ}, d ∈ ds → d ≤ seriesMax ds
  | [], h => absurd h (List.not_mem_nil d)
  | [x], h => by
      rcases List.mem_singleton.mp h with rfl
      exact le_refl _
  | x :: y :: xs, h => by
      rcases List.mem_cons.mp h with rfl | h2
      · exact le_max_left _ _
      · exact le_trans (le_seriesMax_of_mem h2) (le_max_right _ _)

theorem py_int_nat_div (a b : ℕ) (hb : b ≠ 0) :
    py_int ((255 : ℚ) * ((a : ℚ) / (b : ℚ))) = ((255 * a / b : ℕ) : ℤ) := by
  have hb0 : (0 : ℚ) < (b : ℚ) := by exact_mod_cast Nat.pos_of_ne_zero hb
  have h0 : (0 : ℚ) ≤ (255 : ℚ) * ((a : ℚ) / (b : ℚ)) := by positivity
  rw [py_int, if_pos h0]
  refine Int.floor_eq_iff.mpr ⟨?_, ?_⟩
  · rw [mul_div_assoc'] at *
    rw [le_div_iff₀ hb0]
    have hnat : (255 * a / b) * b ≤ 255 * a := Nat.div_mul_le_self (255 * a) b
    push_cast
    exact_mod_cast hnat
  · rw [mul_div_assoc']
    rw [div_lt_iff₀ hb0]
    have hmod := Nat.div_add_mod (255 * a) b
    have hlt : 255 * a % b < b := Nat.mod_lt _ (Nat.pos_of_ne_zero hb)
    have hnat : 255 * a < (255 * a / b + 1) * b := by
      calc 255 * a = b * (255 * a / b) + 255 * a % b := hmod.symm
        _ < b * (255 * a / b) + b := by omega
        _ = (255 * a / b + 1) * b := by ring
    push_cast
    exact_mod_cast hnat

theorem color_intensity_eq (ds : List ℕ) (d : ℕ) (hd : d ∈ ds)
    (hr : date_range ds ≠ 0) :
    color_intensity ds d = ((255 * (d - date_min ds) / date_range ds : ℕ) : ℤ) := by
  have hmin : date_min ds ≤ d := seriesMin_le_of_mem hd
  have hcast : ((days_since_min ds d : ℤ) : ℚ) = ((d - date_min ds : ℕ) : ℚ) := by
    rw [days_since_min]
    push_cast [Nat.cast_sub hmin]
    ring
  rw [color_intensity, hcast]
  exact py_int_nat_div (d - date_min ds) (date_range ds) hr

theorem natToHexDigits_small {n : ℕ} (h : n < 16) : natToHexDigits n = [hexDigit n] := by
  rw [natToHexDigits]
  exact dif_pos h

theorem format02x_eq {n : ℕ} (h : n ≤ 255) :
    format02x n = String.mk [hexDigit (n / 16), hexDigit (n % 16)] := by
  by_cases h16 : n < 16
  · have hdiv : n / 16 = 0 := Nat.div_eq_of_lt h16
    have hmod : n % 16 = n := Nat.mod_eq_of_lt h16
    rw [format02x, natToHexDigits_small h16, hdiv, hmod]
    rfl
  · have hdiv : n / 16 < 16 := by omega
    rw [format02x, natToHexDigits, dif_neg h16, natToHexDigits_small hdiv]
    rfl

theorem hash_hex_append (c1 c2 : Char) :
    "#" ++ String.mk [c1, c2] ++ "0000" = String.mk ['#', c1, c2, '0', '0', '0', '0'] := rfl

/-- C1: when the detection collection's dates span a non-zero range, each
record's red intensity is the integer part of
`255 * (days since earliest) / (days between earliest and latest)`, so the
earliest record gets intensity 0 and the latest gets 255 and the fill
color is the intensity rendered as `#RR0000`; when the range is zero every
record gets the fixed fallback color `"#800000"`. -/
theorem detection_color_linear (ds : List ℕ) (d : ℕ) (hd : d ∈ ds) :
    (date_range ds ≠ 0 →
        color_intensity ds d = ((255 * (d - date_min ds) / date_range ds : ℕ) : ℤ)
        ∧ (d = date_min ds → color_intensity ds d = 0)
        ∧ (d = seriesMax ds → color_intensity ds d = 255)
        ∧ detection_fill_color ds d = "#" ++ format02x (color_intensity ds d).toNat ++ "0000")
    ∧ (date_range ds = 0 → detection_fill_color ds d = "#800000") := by
  constructor
  · intro hr
    have heq := color_intensity_eq ds d hd hr
    refine ⟨heq, ?_, ?_, ?_⟩
    · intro hdm
      rw [heq, hdm]
      simp
    · intro hdm
      have hsub : d - date_min ds = date_range ds := by
        rw [date_range, hdm]
      rw [heq, hsub, Nat.mul_div_cancel _ (Nat.pos_of_ne_zero hr)]
      rfl
    · rw [detection_fill_color, if_neg hr]
  · intro hr
    rw [detection_fill_color, if_pos hr]

theorem detection_color_linear_witness :
    color_intensity [10, 20, 30] 20
      = ((255 * (20 - date_min [10, 20, 30]) / date_range [10, 20, 30] : ℕ) : ℤ) :=
  ((detection_color_linear [10, 20, 30] 20 (by decide)).1 (by decide)).1

/-- C10: with a non-zero date range, every in-collection record's computed
intensity lies in `[0, 255]`, so the fill-color string is a well-formed
seven-character `#RR0000` hex color with zero green and blue components. -/
theorem detection_color_wellformed (ds : List ℕ) (d : ℕ) (hd : d ∈ ds)
    (hr : date_range ds ≠ 0) :
    0 ≤ color_intensity ds d ∧ color_intensity ds d ≤ 255
    ∧ detection_fill_color ds d =
        String.mk ['#', hexDigit ((color_intensity ds d).toNat / 16),
          hexDigit ((color_intensity ds d).toNat % 16), '0', '0', '0', '0']
    ∧ (detection_fill_color ds d).length = 7 := by
  have heq := color_intensity_eq ds d hd hr
  have hmax : d ≤ seriesMax ds := le_seriesMax_of_mem hd
  have hsub : d - date_min ds ≤ date_range ds := by
    rw [date_range]
    omega
  have hle : 255 * (d - date_min ds) / date_range ds ≤ 255 := by
    calc 255 * (d - date_min ds) / date_range ds
        ≤ 255 * date_range ds / date_range ds :=
          Nat.div_le_div_right (Nat.mul_le_mul_left 255 hsub)
      _ = 255 := Nat.mul_div_cancel _ (Nat.pos_of_ne_zero hr)
  have htoNat : (color_intensity ds d).toNat = 255 * (d - date_min ds) / date_range ds := by
    rw [heq]
    exact Int.toNat_natCast _
  refine ⟨by rw [heq]; exact Int.natCast_nonneg _, by rw [heq]; exact_mod_cast hle, ?_, ?_⟩
  · rw [detection_fill_color, if_neg hr, format02x_eq (htoNat ▸ hle), hash_hex_append]
  · rw [detection_fill_color, if_neg hr, format02x_eq (htoNat ▸ hle), hash_hex_append]
    rfl

theorem detection_color_wellformed_witness :
    0 ≤ color_intensity [10, 20, 30] 20 ∧ color_intensity [10, 20, 30] 20 ≤ 255
    ∧ detection_fill_color [10, 20, 30] 20 =
        String.mk ['#', hexDigit ((color_intensity [10, 20, 30] 20).toNat / 16),
          hexDigit ((color_intensity [10, 20, 30] 20).toNat % 16), '0', '0', '0', '0']
    ∧ (detection_fill_color [10, 20, 30] 20).length = 7 :=
  detection_color_wellformed [10, 20, 30] 20 (by decide) (by decide)

/-- C2: the Bounds Converter transforms exactly the two diagonal corners
(west/south and east/north) with the fixed UTM→WGS84 transformer — the
result does not depend on the transform's values at the north-west or
south-east corners (or anywhere else) — and the output keeps, under the
same image identifier, the four original projected edges alongside the
four derived geographic edges. -/
theorem bounds_converter_corners (transform : ℚ × ℚ → ℚ × ℚ)
    (entries : List (String × BoundsUTM)) (b : BoundsUTM)
    (transform2 : ℚ × ℚ → ℚ × ℚ)
    (hws : transform (b.west, b.south) = transform2 (b.west, b.south))
    (hen : transform (b.east, b.north) = transform2 (b.east, b.north)) :
    utm_crs = "EPSG:32630" ∧ wgs84_crs = "EPSG:4326"
    ∧ (convert_all_bounds transform entries).map Prod.fst = entries.map Prod.fst
    ∧ (∀ bb : BoundsUTM,
        (convert_bounds transform bb).west = (transform (bb.west, bb.south)).1
        ∧ (convert_bounds transform bb).south = (transform (bb.west, bb.south)).2
        ∧ (convert_bounds transform bb).east = (transform (bb.east, bb.north)).1
        ∧ (convert_bounds transform bb).north = (transform (bb.east, bb.north)).2
        ∧ (convert_bounds transform bb).west_utm = bb.west
        ∧ (convert_bounds transform bb).south_utm = bb.south
        ∧ (convert_bounds transform bb).east_utm = bb.east
        ∧ (convert_bounds transform bb).north_utm = bb.north)
    ∧ convert_bounds transform b = convert_bounds transform2 b
    ∧ convert_all_bounds transform entries
        = entries.map (fun e => (e.1, convert_bounds transform e.2)) := by
  refine ⟨rfl, rfl, ?_, ?_, ?_, rfl⟩
  · rw [convert_all_bounds, List.map_map]
    rfl
  · intro bb
    exact ⟨rfl, rfl, rfl, rfl, rfl, rfl, rfl, rfl⟩
  · rw [convert_bounds, convert_bounds, hws, hen]

theorem bounds_converter_corners_witness :
    convert_bounds (fun p => p) ⟨4, 1, 3, 2⟩
      = convert_bounds
          (fun p => if p = ((2 : ℚ), (4 : ℚ)) then ((99 : ℚ), (99 : ℚ)) else p)
          ⟨4, 1, 3, 2⟩ :=
  (bounds_converter_corners (fun p => p) [] ⟨4, 1, 3, 2⟩
    (fun p => if p = ((2 : ℚ), (4 : ℚ)) then ((99 : ℚ), (99 : ℚ)) else p)
    (by decide) (by decide)).2.2.2.2.1

/-- C3: a district-compliance record whose `fill_color` is the sentinel
`"transparent"` is rendered with fill opacity exactly 0, whatever its
other attributes; any other `fill_color` is rendered as given (with the
fixed opacity 0.6). -/
theorem district_transparent_opacity (record : DistrictRecord) :
    (record.fill_color = "transparent" → (district_style record).fillOpacity = 0)
    ∧ (record.fill_color ≠ "transparent" →
        (district_style record).fillColor = record.fill_color
        ∧ (district_style record).fillOpacity = 0.6) := by
  constructor
  · intro h
    simp [district_style, h]
  · intro h
    simp [district_style, h]

theorem district_transparent_opacity_witness :
    (district_style transparent_record).fillOpacity = 0 :=
  (district_transparent_opacity transparent_record).1 rfl

theorem digit_char_isDigit {k : ℕ} (hk : k ≤ 9) : (Char.ofNat (48 + k)).isDigit = true := by
  interval_cases k <;> decide

theorem format2f_shape (q : ℚ) :
    ∃ s c1 c2, format2f q = s ++ "." ++ String.mk [c1, c2]
      ∧ c1.isDigit ∧ c2.isDigit := by
  have htwo : ∀ m : ℕ, ∃ c1 c2, two_digits (m % 100) = String.mk [c1, c2]
      ∧ c1.isDigit ∧ c2.isDigit := by
    intro m
    refine ⟨Char.ofNat (48 + m % 100 / 10), Char.ofNat (48 + m % 100 % 10), rfl, ?_, ?_⟩
    · exact digit_char_isDigit (by omega)
    · exact digit_char_isDigit (by omega)
  by_cases hq : q < 0
  · obtain ⟨c1, c2, ht, h1, h2⟩ := htwo (py_round (-q * 100)).toNat
    refine ⟨"-" ++ Nat.repr ((py_round (-q * 100)).toNat / 100), c1, c2, ?_, h1, h2⟩
    rw [format2f, if_pos hq, format2f_nonneg, ht, ← String.append_assoc,
      ← String.append_assoc]
  · obtain ⟨c1, c2, ht, h1, h2⟩ := htwo (py_round (q * 100)).toNat
    refine ⟨Nat.repr ((py_round (q * 100)).toNat / 100), c1, c2, ?_, h1, h2⟩
    rw [format2f, if_neg hq, format2f_nonneg, ht]

/-- C4: the district tooltip reads `"<district>: No licensed mining"` when
`mining_ratio == -1`, and otherwise `"<district>: "` followed by the ratio
formatted to exactly two decimal places (a string ending in a dot and two
decimal digit characters). -/
theorem district_tooltip_ratio (record : DistrictRecord) :
    (record.mining_ratio = -1 →
        tooltip_text record = record.district_name ++ ": " ++ "No licensed mining")
    ∧ (record.mining_ratio ≠ -1 →
        tooltip_text record = record.district_name ++ ": " ++ format2f record.mining_ratio
        ∧ ∃ s c1 c2, format2f record.mining_ratio = s ++ "." ++ String.mk [c1, c2]
            ∧ c1.isDigit ∧ c2.isDigit) := by
  constructor
  · intro h
    rw [tooltip_text, ratio_text, if_pos h]
  · intro h
    exact ⟨by rw [tooltip_text, ratio_text, if_neg h], format2f_shape _⟩

theorem district_tooltip_ratio_witness :
    tooltip_text sample_record
      = sample_record.district_name ++ ": " ++ format2f sample_record.mining_ratio :=
  (((district_tooltip_ratio sample_record).2 (by decide)).1)

/-- C5: for each satellite bounds entry the Layer Builder probes for an
image file under exactly the three resolution suffixes `_med`, `_low` and
none, in that priority order, uses the first that exists, and when none of
the three exists produces no layer element for the entry while the layer
build over the remaining entries completes unchanged. -/
theorem satellite_probe_order (path_exists : String → Bool)
    (read_file : String → Option (List ℕ)) (b64encode : List ℕ → String)
    (fallback_ok : String → Bool) (dir image_name : String)
    (b : BoundsConverted) (l1 l2 : List (String × BoundsConverted))
    (hm : path_exists (test_path dir image_name "med") = false)
    (hl : path_exists (test_path dir image_name "low") = false)
    (ho : path_exists (test_path dir image_name "") = false) :
    (∀ pe : String → Bool, resolve_image pe dir image_name =
        if pe (test_path dir image_name "med") then
          some (test_path dir image_name "med", "Medium")
        else if pe (test_path dir image_name "low") then
          some (test_path dir image_name "low", "Low")
        else if pe (test_path dir image_name "") then
          some (test_path dir image_name "", "Original")
        else none)
    ∧ resolve_image path_exists dir image_name = none
    ∧ build_satellite_layer path_exists read_file b64encode fallback_ok dir
        (l1 ++ (image_name, b) :: l2)
      = build_satellite_layer path_exists read_file b64encode fallback_ok dir (l1 ++ l2) := by
  have hnone : resolve_image path_exists dir image_name = none := by
    simp [resolve_image, res_options, List.find?, hm, hl, ho]
  refine ⟨?_, hnone, ?_⟩
  · intro pe
    cases h1 : pe (test_path dir image_name "med") <;>
      cases h2 : pe (test_path dir image_name "low") <;>
        cases h3 : pe (test_path dir image_name "") <;>
          simp [resolve_image, res_options, List.find?, h1, h2, h3]
  · rw [build_satellite_layer, build_satellite_layer, List.filterMap_append,
      List.filterMap_append, List.filterMap_cons]
    simp [hnone]

theorem satellite_probe_order_witness :
    resolve_image (fun _ => false) "www" "img" = none :=
  (satellite_probe_order (fun _ => false) (fun _ => none) (fun _ => "")
    (fun _ => false) "www" "img" ⟨0, 0, 0, 0, 0, 0, 0, 0⟩ [] []
    rfl rfl rfl).2.1

/-- C6: for a located image file, inline base64 embedding is attempted
first and on success the overlay references the data URL; if reading and
encoding fails, a fallback overlay referencing the image by its bare
filename is attempted; if both fail the entry yields no overlay — the
embedding is a total function, so no exception leaves the layer build. -/
theorem satellite_embed_fallback (read_file : String → Option (List ℕ))
    (b64encode : List ℕ → String) (fallback_ok : String → Bool)
    (img_path res_label image_name : String) (img_bounds : (ℚ × ℚ) × (ℚ × ℚ)) :
    (∀ img_data, read_file img_path = some img_data →
        addSatelliteImage read_file b64encode fallback_ok img_path res_label
            image_name img_bounds
          = some { image := "data:image/png;base64," ++ b64encode img_data
                   bounds := img_bounds
                   opacity := 0.8
                   name := overlay_name image_name res_label
                   interactive := true
                   cross_origin := some false })
    ∧ (read_file img_path = none → fallback_ok (basename img_path) = true →
        addSatelliteImage read_file b64encode fallback_ok img_path res_label
            image_name img_bounds
          = some { image := basename img_path
                   bounds := img_bounds
                   opacity := 0.8
                   name := overlay_name image_name res_label
                   interactive := true
                   cross_origin := none })
    ∧ (read_file img_path = none → fallback_ok (basename img_path) = false →
        addSatelliteImage read_file b64encode fallback_ok img_path res_label
            image_name img_bounds = none) := by
  refine ⟨?_, ?_, ?_⟩
  · intro img_data h
    simp [addSatelliteImage, h]
  · intro h hf
    simp [addSatelliteImage, h, hf]
  · intro h hf
    simp [addSatelliteImage, h, hf]

theorem satellite_embed_fallback_witness :
    addSatelliteImage (fun _ => none) (fun _ => "") (fun _ => true)
        "www/img_med.png" "Medium" "img" ((0, 0), (0, 0))
      = some { image := basename "www/img_med.png"
               bounds := ((0, 0), (0, 0))
               opacity := 0.8
               name := overlay_name "img" "Medium"
               interactive := true
               cross_origin := none } :=
  (satellite_embed_fallback (fun _ => none) (fun _ => "") (fun _ => true)
    "www/img_med.png" "Medium" "img" ((0, 0), (0, 0))).2.1 rfl rfl

/-- C7: the layers are attached in the fixed order basemap, satellite,
regions, district-ratio, district-boundaries, detections, licenses, and
the assembled document contains exactly six named toggleable feature
groups plus the legend element and the layer-control widget. -/
theorem map_layer_order (bounds : Fin 4 → ℚ) :
    (build_map bounds).children.filterMap layer_name =
      ["Planet Basemap", "Satellite Images (High-Res)", "Regions",
       "Districts by Mining Ratio", "District Boundaries",
       "Detected Mining Activity", "Licensed sites"]
    ∧ ((build_map bounds).children.filter (fun e => is_feature_group e)).length = 6
    ∧ MapElement.htmlElement "mining-legend" ∈ (build_map bounds).children
    ∧ MapElement.layerControl ∈ (build_map bounds).children := by
  refine ⟨rfl, rfl, ?_, ?_⟩
  · simp [build_map]
  · simp [build_map]

/-- C8: the map's initial center is the midpoint of the license dataset's
bounding box (`bounds = gdf_licenses.total_bounds`), and the final map
operation fits the viewport exactly to that same bounding box, overriding
the initial center and zoom. -/
theorem map_center_fit (bounds : Fin 4 → ℚ) :
    (build_map bounds).location = ((bounds 1 + bounds 3) / 2, (bounds 0 + bounds 2) / 2)
    ∧ (build_map bounds).children.getLast?
        = some (MapElement.fitBounds (bounds 1, bounds 0) (bounds 3, bounds 2)) :=
  ⟨rfl, rfl⟩

/-- C9: every layer attached to the map (the basemap tile layer and all
six feature groups) carries `show=False`, so no layer is auto-shown on
initial render. -/
theorem map_layers_hidden (bounds : Fin 4 → ℚ) :
    (build_map bounds).children.filterMap layer_show_flag = List.replicate 7 false := rfl

end GhanaMining
